import Mathlib

/-!
Verification of the Jironaut chatbot core (`src/App.jsx`), a shallow embedding
of the request-dispatch layer: mode classification, rubric scoring, resilient
retry, result caching and response assembly.

Modelling conventions:
* JavaScript numbers that hold rubric points are modelled as `Int`
  (`Math.round((obtained / 100) * 100)` is the identity on integer inputs).
* A JS object used as a map is modelled as an association list with
  first-occurrence lookup; `scores[k] || 0` becomes a lookup defaulting to 0.
* Fallible operations return `Option`; thrown errors become explicit outcome
  constructors.
-/

set_option maxHeartbeats 1000000
set_option maxRecDepth 100000

namespace Jironaut

/-- The four badge labels awarded by `calculateBadgeAndTotal`. -/
inductive Badge where
  | visionaryThinker
  | featureArchitect
  | clarityChampion
  | riskWrangler
deriving DecidableEq

/-- Rendered badge strings exactly as assigned in the source. -/
def badgeLabel : Badge → String
  | .visionaryThinker => "Visionary Thinker 🌟"
  | .featureArchitect => "Feature Architect 🧠"
  | .clarityChampion => "Clarity Champion 🥇"
  | .riskWrangler => "Risk Wrangler ⚖️"

/-- Result of the rubric scorer: `{ total, badge }`. -/
structure ScoreResult where
  total : Int
  badge : Option Badge
deriving DecidableEq

/-- Per-criterion lookup with the source's default-to-zero semantics
(`scores[k] || 0`). -/
def lookupScore (scores : List (String × Int)) (k : String) : Int :=
  match scores.lookup k with
  | some v => v
  | none => 0

/-- `obtained`: the loop `for (let k in scores) obtained += scores[k]`
sums the value of every key present in the mapping. -/
def totalOf (scores : List (String × Int)) : Int :=
  (scores.map (fun kv => kv.2)).sum

/-- Sub-total for the "Visionary Thinker" rule
(`Benefit Hypothesis + Strategic alignment + Leading Indicators`). -/
def benefitSub (scores : List (String × Int)) : Int :=
  lookupScore scores "Benefit Hypothesis" + lookupScore scores "Strategic alignment" +
    lookupScore scores "Leading Indicators"

/-- Sub-total for the "Clarity Champion" rule
(`Title clarity + Description completeness + Scope clarity`). -/
def claritySub (scores : List (String × Int)) : Int :=
  lookupScore scores "Title clarity" + lookupScore scores "Description completeness" +
    lookupScore scores "Scope clarity"

/-- Sub-total for the "Risk Wrangler" rule (`Risk/Impact + Dependencies`). -/
def riskDepsSub (scores : List (String × Int)) : Int :=
  lookupScore scores "Risk/Impact" + lookupScore scores "Dependencies"

/-- Embedding of `calculateBadgeAndTotal` from `src/App.jsx`.
`total = Math.round((obtained / 100) * 100)` is `obtained` itself for integer
scores.  The badge is assigned by four sequential unconditional `if`
statements, each overwriting the previous assignment. -/
def calculateBadgeAndTotal (scores : List (String × Int)) : ScoreResult :=
  let total := totalOf scores
  let benefit := benefitSub scores
  let clarity := claritySub scores
  let riskDeps := riskDepsSub scores
  let badge : Option Badge := none
  let badge := if benefit ≥ 40 then some Badge.visionaryThinker else badge
  let badge := if total ≥ 85 then some Badge.featureArchitect else badge
  let badge := if clarity ≥ 30 then some Badge.clarityChampion else badge
  let badge := if riskDeps ≥ 15 then some Badge.riskWrangler else badge
  ⟨total, badge⟩

/-- Modelled from the spec's badge semantics (for comparison with the source
function): the rules as an ordered list of (condition, badge) pairs evaluated
in the fixed order (1) Visionary Thinker, (2) Feature Architect, (3) Clarity
Champion, (4) Risk Wrangler, each matching rule unconditionally overwriting
any prior badge, `none` if no rule matches. -/
def specBadge (scores : List (String × Int)) : Option Badge :=
  let rules : List (Bool × Badge) :=
    [ (decide (benefitSub scores ≥ 40), Badge.visionaryThinker)
    , (decide (totalOf scores ≥ 85), Badge.featureArchitect)
    , (decide (claritySub scores ≥ 30), Badge.clarityChampion)
    , (decide (riskDepsSub scores ≥ 15), Badge.riskWrangler) ]
  rules.foldl (fun acc r => if r.1 then some r.2 else acc) none

/-- The eight fixed criterion names of the rubric. -/
def criterionNames : List String :=
  [ "Title clarity", "Description completeness", "Benefit Hypothesis",
    "Leading Indicators", "Strategic alignment", "Risk/Impact",
    "Dependencies", "Scope clarity" ]

/-- The mapping with `Risk/Impact = 10`, `Dependencies = 10` and every other
criterion 0. -/
def riskOnlyScores : List (String × Int) :=
  [ ("Title clarity", 0), ("Description completeness", 0),
    ("Benefit Hypothesis", 0), ("Leading Indicators", 0),
    ("Strategic alignment", 0), ("Risk/Impact", 10),
    ("Dependencies", 10), ("Scope clarity", 0) ]

/-- The mapping with every criterion at its maximum (total 100). -/
def fullMarks : List (String × Int) :=
  [ ("Title clarity", 10), ("Description completeness", 15),
    ("Benefit Hypothesis", 20), ("Leading Indicators", 15),
    ("Strategic alignment", 10), ("Risk/Impact", 10),
    ("Dependencies", 10), ("Scope clarity", 10) ]

/-- Claim C1: the badge rules are evaluated in the fixed order
Visionary Thinker, Feature Architect, Clarity Champion, Risk Wrangler, each
matching rule unconditionally overwriting any prior badge (last match wins),
with badge `none` when no rule matches; in particular `Risk/Impact = 10`,
`Dependencies = 10` and all else 0 yields total 20 and badge Risk Wrangler. -/
theorem c1_badge_rules :
    (∀ scores : List (String × Int),
      (calculateBadgeAndTotal scores).badge = specBadge scores) ∧
    calculateBadgeAndTotal riskOnlyScores = ⟨20, some Badge.riskWrangler⟩ ∧
    calculateBadgeAndTotal [] = ⟨0, none⟩ := by
  refine ⟨fun scores => ?_, by decide, by decide⟩
  simp only [calculateBadgeAndTotal, specBadge, List.foldl]
  by_cases h1 : benefitSub scores ≥ 40 <;>
    by_cases h2 : totalOf scores ≥ 85 <;>
    by_cases h3 : claritySub scores ≥ 30 <;>
    by_cases h4 : riskDepsSub scores ≥ 15 <;>
    simp [h1, h2, h3, h4]

/-- Witness for C1: the badge/spec-rule agreement evaluated at a concrete
mapping. -/
theorem c1_badge_rules_witness :
    (calculateBadgeAndTotal riskOnlyScores).badge = specBadge riskOnlyScores :=
  c1_badge_rules.1 riskOnlyScores

/-- Counterexample to claim C2: the full-marks mapping contains
`Title clarity = 10`, `Description completeness = 15`, `Scope clarity = 10`,
its computed total is 100, yet the badge is Risk Wrangler, not
Feature Architect (the later clarity and risk rules overwrite rule 2). -/
theorem c2_counterexample :
    lookupScore fullMarks "Title clarity" = 10 ∧
    lookupScore fullMarks "Description completeness" = 15 ∧
    lookupScore fullMarks "Scope clarity" = 10 ∧
    (calculateBadgeAndTotal fullMarks).total = 100 ∧
    (calculateBadgeAndTotal fullMarks).badge ≠ some Badge.featureArchitect ∧
    (calculateBadgeAndTotal fullMarks).badge = some Badge.riskWrangler := by
  decide

/-- Claim C2 (amended): for every mapping containing `Title clarity = 10`,
`Description completeness = 15`, `Scope clarity = 10` whose computed total is
100, the badge is Risk Wrangler when `Risk/Impact + Dependencies ≥ 15` and
Clarity Champion otherwise — never Feature Architect, because the clarity
sub-total 35 ≥ 30 always lets rule 3 overwrite rule 2. -/
theorem c2_amended (scores : List (String × Int))
    (h1 : lookupScore scores "Title clarity" = 10)
    (h2 : lookupScore scores "Description completeness" = 15)
    (h3 : lookupScore scores "Scope clarity" = 10)
    (h4 : (calculateBadgeAndTotal scores).total = 100) :
    (calculateBadgeAndTotal scores).badge =
      some (if riskDepsSub scores ≥ 15 then Badge.riskWrangler
            else Badge.clarityChampion) := by
  have hc : claritySub scores = 35 := by
    simp [claritySub, h1, h2, h3]
  simp only [calculateBadgeAndTotal, hc]
  by_cases h5 : riskDepsSub scores ≥ 15 <;> simp [h5]

/-- Witness for the amended C2 at the full-marks mapping. -/
theorem c2_amended_witness :
    lookupScore fullMarks "Title clarity" = 10 ∧
    lookupScore fullMarks "Description completeness" = 15 ∧
    lookupScore fullMarks "Scope clarity" = 10 ∧
    (calculateBadgeAndTotal fullMarks).total = 100 ∧
    (calculateBadgeAndTotal fullMarks).badge =
      some (if riskDepsSub fullMarks ≥ 15 then Badge.riskWrangler
            else Badge.clarityChampion) :=
  ⟨by decide, by decide, by decide, by decide,
    c2_amended fullMarks (by decide) (by decide) (by decide) (by decide)⟩

lemma lookupScore_append_single (scores : List (String × Int)) (k name : String)
    (v : Int) (h : name ≠ k) :
    lookupScore (scores ++ [(k, v)]) name = lookupScore scores name := by
  induction scores with
  | nil =>
    have hb : (name == k) = false := by simp [h]
    simp [lookupScore, List.lookup, hb]
  | cons hd tl ih =>
    by_cases hk : name = hd.1
    · simp [lookupScore, List.lookup, hk]
    · have : (name == hd.1) = false := by simp [hk]
      simp only [lookupScore, List.cons_append, List.lookup, this] at ih ⊢
      exact ih

/-- Claim C10: the total sums every key present in the mapping, so appending
an unrecognized key with a positive value strictly increases the total, while
none of the three badge sub-totals (which read only the eight named criteria)
changes. -/
theorem c10_extra_key (scores : List (String × Int)) (k : String) (v : Int)
    (hk : k ∉ criterionNames) (hv : 0 < v) :
    (calculateBadgeAndTotal (scores ++ [(k, v)])).total =
      (calculateBadgeAndTotal scores).total + v ∧
    (calculateBadgeAndTotal scores).total <
      (calculateBadgeAndTotal (scores ++ [(k, v)])).total ∧
    benefitSub (scores ++ [(k, v)]) = benefitSub scores ∧
    claritySub (scores ++ [(k, v)]) = claritySub scores ∧
    riskDepsSub (scores ++ [(k, v)]) = riskDepsSub scores := by
  simp only [criterionNames, List.mem_cons, List.not_mem_nil, or_false,
    not_or] at hk
  obtain ⟨n1, n2, n3, n4, n5, n6, n7, n8⟩ := hk
  have htot : (calculateBadgeAndTotal (scores ++ [(k, v)])).total =
      (calculateBadgeAndTotal scores).total + v := by
    simp [calculateBadgeAndTotal, totalOf]
  refine ⟨htot, ?_, ?_, ?_, ?_⟩
  · rw [htot]; omega
  · simp [benefitSub,
      lookupScore_append_single _ _ _ _ (fun h => n3 h.symm),
      lookupScore_append_single _ _ _ _ (fun h => n5 h.symm),
      lookupScore_append_single _ _ _ _ (fun h => n4 h.symm)]
  · simp [claritySub,
      lookupScore_append_single _ _ _ _ (fun h => n1 h.symm),
      lookupScore_append_single _ _ _ _ (fun h => n2 h.symm),
      lookupScore_append_single _ _ _ _ (fun h => n8 h.symm)]
  · simp [riskDepsSub,
      lookupScore_append_single _ _ _ _ (fun h => n6 h.symm),
      lookupScore_append_single _ _ _ _ (fun h => n7 h.symm)]

/-- Witness for C10: adding an unrecognized key worth 50 points to the
full-marks mapping lifts the total to 150 (beyond 100) while leaving every
badge sub-total unchanged. -/
theorem c10_extra_key_witness :
    "Story points" ∉ criterionNames ∧ (0 : Int) < 50 ∧
    ((calculateBadgeAndTotal (fullMarks ++ [("Story points", 50)])).total =
        (calculateBadgeAndTotal fullMarks).total + 50 ∧
      (calculateBadgeAndTotal fullMarks).total <
        (calculateBadgeAndTotal (fullMarks ++ [("Story points", 50)])).total ∧
      benefitSub (fullMarks ++ [("Story points", 50)]) = benefitSub fullMarks ∧
      claritySub (fullMarks ++ [("Story points", 50)]) = claritySub fullMarks ∧
      riskDepsSub (fullMarks ++ [("Story points", 50)]) =
        riskDepsSub fullMarks) ∧
    (calculateBadgeAndTotal (fullMarks ++ [("Story points", 50)])).total = 150 :=
  ⟨by decide, by decide,
    c10_extra_key fullMarks "Story points" 50 (by decide) (by decide),
    by decide⟩

/-! ## Resilient Completion Client (`chatWithRetry`) -/

/-- `String.includes` from JS: `pat` occurs as a contiguous substring of
`s`. -/
def strContains (s pat : String) : Bool :=
  (List.range (s.data.length + 1)).any fun i => pat.data.isPrefixOf (s.data.drop i)

/-- The quota/billing fragment tested by `chatWithRetry`
(`msg.includes("check your plan and billing")`). -/
def billingPhrase : String := "check your plan and billing"

/-- Message of the distinct error thrown when the billing condition is
detected. -/
def billingErrText : String :=
  "OpenAI: quota/billing exceeded. Add billing to your account."

/-- An upstream error: `err.message` and the optional HTTP `err.status`. -/
structure ErrInfo where
  message : String
  status : Option Nat
deriving DecidableEq

/-- Result of one `client.chat.completions.create` call. -/
inductive AttemptResult where
  | success (text : String)
  | failure (e : ErrInfo)
deriving DecidableEq

/-- Terminal outcome of `chatWithRetry`: success, the distinct billing error,
or the rethrown upstream error. -/
inductive RetryOutcome where
  | ok (text : String)
  | billingExceeded
  | err (e : ErrInfo)
deriving DecidableEq

/-- Observable trace of a `chatWithRetry` run: how many upstream calls were
made, the backoff delays awaited between attempts, and the terminal
outcome. -/
structure RetryResult where
  calls : Nat
  delays : List Nat
  outcome : RetryOutcome
deriving DecidableEq

/-- The retry loop of `chatWithRetry`, one step per attempt.  `oracle n`
is the result of the `n`-th upstream call; `remaining` is the number of
retries still allowed (`retries - attempt`, so `attempt < retries` iff
`remaining > 0`).  On failure: the billing condition aborts immediately;
a 429 status with attempts remaining waits `baseDelayMs * 2 ^ attempt` and
retries; anything else rethrows. -/
def chatLoop (oracle : Nat → AttemptResult) (baseDelayMs : Nat) :
    Nat → Nat → RetryResult
  | 0, attempt =>
    match oracle attempt with
    | .success t => ⟨1, [], .ok t⟩
    | .failure e =>
      if strContains e.message billingPhrase then ⟨1, [], .billingExceeded⟩
      else ⟨1, [], .err e⟩
  | r + 1, attempt =>
    match oracle attempt with
    | .success t => ⟨1, [], .ok t⟩
    | .failure e =>
      if strContains e.message billingPhrase then ⟨1, [], .billingExceeded⟩
      else if e.status = some 429 then
        let rest := chatLoop oracle baseDelayMs r (attempt + 1)
        ⟨rest.calls + 1, baseDelayMs * 2 ^ attempt :: rest.delays, rest.outcome⟩
      else ⟨1, [], .err e⟩

/-- Embedding of `chatWithRetry(payload, { retries = 3, baseDelayMs = 800 })`:
the loop starts at attempt 0 with all `retries` retries available. -/
def chatWithRetry (oracle : Nat → AttemptResult) (retries baseDelayMs : Nat) :
    RetryResult :=
  chatLoop oracle baseDelayMs retries 0

lemma chatLoop_calls_le (oracle : Nat → AttemptResult) (base : Nat) :
    ∀ remaining attempt, (chatLoop oracle base remaining attempt).calls ≤ remaining + 1 := by
  intro remaining
  induction remaining with
  | zero =>
    intro attempt
    unfold chatLoop
    split
    · simp
    · split <;> simp
  | succ r ih =>
    intro attempt
    unfold chatLoop
    split
    · simp
    · split
      · simp
      · split
        · exact Nat.succ_le_succ (ih (attempt + 1))
        · simp

/-- Claim C3: when every upstream attempt fails with rate-limit status 429
(and a non-billing message), `chatWithRetry` with `retries = 3`,
`baseDelayMs = 800` makes exactly 4 upstream calls, waits 800, 1600 and 3200
milliseconds before the three retries, and terminally propagates the final
failure; in general the number of upstream calls is at most `retries + 1`. -/
theorem c3_retry_exhaustion (oracle : Nat → AttemptResult) (e : Nat → ErrInfo)
    (hfail : ∀ n, oracle n = .failure (e n))
    (hstatus : ∀ n, (e n).status = some 429)
    (hbill : ∀ n, strContains (e n).message billingPhrase = false) :
    (chatWithRetry oracle 3 800).calls = 4 ∧
    (chatWithRetry oracle 3 800).delays = [800, 1600, 3200] ∧
    (chatWithRetry oracle 3 800).outcome = .err (e 3) ∧
    ∀ (oracle2 : Nat → AttemptResult) (retries base : Nat),
      (chatWithRetry oracle2 retries base).calls ≤ retries + 1 := by
  refine ⟨?_, ?_, ?_, fun oracle2 retries base => chatLoop_calls_le oracle2 base retries 0⟩ <;>
    simp [chatWithRetry, chatLoop, hfail 0, hfail 1, hfail 2, hfail 3,
      hbill 0, hbill 1, hbill 2, hbill 3,
      hstatus 0, hstatus 1, hstatus 2, hstatus 3]

/-- A concrete always-rate-limited upstream error. -/
def rateLimitedErr : ErrInfo := ⟨"429 Too Many Requests", some 429⟩

/-- Witness for C3: a concrete oracle that fails every attempt with status
429. -/
theorem c3_retry_exhaustion_witness :
    ((fun _ : Nat => AttemptResult.failure rateLimitedErr) 0 =
        .failure rateLimitedErr) ∧
    rateLimitedErr.status = some 429 ∧
    strContains rateLimitedErr.message billingPhrase = false ∧
    ((chatWithRetry (fun _ => .failure rateLimitedErr) 3 800).calls = 4 ∧
      (chatWithRetry (fun _ => .failure rateLimitedErr) 3 800).delays =
        [800, 1600, 3200] ∧
      (chatWithRetry (fun _ => .failure rateLimitedErr) 3 800).outcome =
        .err rateLimitedErr ∧
      ∀ (oracle2 : Nat → AttemptResult) (retries base : Nat),
        (chatWithRetry oracle2 retries base).calls ≤ retries + 1) := by
  have hb : strContains rateLimitedErr.message billingPhrase = false := by decide
  exact ⟨rfl, rfl, hb,
    c3_retry_exhaustion (fun _ => .failure rateLimitedErr) (fun _ => rateLimitedErr)
      (fun _ => rfl) (fun _ => rfl) (fun _ => hb)⟩

/-- Claim C4: if the first upstream attempt fails with a message containing
the billing phrase, `chatWithRetry` makes exactly one upstream call, waits
for no delay, and fails immediately with the distinct billing error —
whatever the configured `retries`, `baseDelayMs` and the error's status. -/
theorem c4_billing_short_circuit (oracle : Nat → AttemptResult) (e : ErrInfo)
    (retries base : Nat)
    (hfail : oracle 0 = .failure e)
    (hbill : strContains e.message billingPhrase = true) :
    chatWithRetry oracle retries base = ⟨1, [], .billingExceeded⟩ := by
  cases retries <;> (unfold chatWithRetry chatLoop; simp [hfail, hbill])

/-- A concrete billing-quota upstream error (status 402, not 429). -/
def billingQuotaErr : ErrInfo :=
  ⟨"You exceeded your current quota, please check your plan and billing details.",
    some 402⟩

/-- Witness for C4: a concrete billing failure on attempt 0 with 7 retries
configured still yields exactly one call and the billing outcome. -/
theorem c4_billing_short_circuit_witness :
    ((fun _ : Nat => AttemptResult.failure billingQuotaErr) 0 =
        .failure billingQuotaErr) ∧
    strContains billingQuotaErr.message billingPhrase = true ∧
    chatWithRetry (fun _ => .failure billingQuotaErr) 7 800 =
      ⟨1, [], .billingExceeded⟩ :=
  ⟨rfl, by decide,
    c4_billing_short_circuit (fun _ => .failure billingQuotaErr) billingQuotaErr
      7 800 rfl (by decide)⟩

/-! ## JSON values, `JSON.parse` and `JSON.stringify`

JSON numbers are modelled as integers (the rubric's point values are
integers; responses with fractional numbers are outside the model — the
parser rejects them, which only shrinks the modelled input domain of the
conditional claims below). -/

/-- A JSON value. -/
inductive JsonVal where
  | null
  | bool (b : Bool)
  | num (n : Int)
  | str (s : String)
  | arr (xs : List JsonVal)
  | obj (fields : List (String × JsonVal))

/-- JS truthiness of a JSON value (`if (parsed.scores)`). -/
def jsTruthy : JsonVal → Bool
  | .null => false
  | .bool b => b
  | .num n => n ≠ 0
  | .str s => s ≠ ""
  | .arr _ => true
  | .obj _ => true

/-- JSON insignificant whitespace. -/
def jsonWs (c : Char) : Bool :=
  c = ' ' || c = '\t' || c = '\n' || c = '\r'

/-- Drop leading JSON whitespace. -/
def skipWs (cs : List Char) : List Char :=
  cs.dropWhile jsonWs

/-- Parse the body of a JSON string (the opening quote already consumed),
handling the common escapes, up to and including the closing quote. -/
def parseStringBody : Nat → List Char → Option (String × List Char)
  | 0, _ => none
  | _ + 1, [] => none
  | f + 1, c :: rest =>
    if c = '"' then some ("", rest)
    else if c = '\\' then
      match rest with
      | [] => none
      | e :: rest2 =>
        let ec : Option Char :=
          if e = '"' then some '"'
          else if e = '\\' then some '\\'
          else if e = '/' then some '/'
          else if e = 'n' then some '\n'
          else if e = 't' then some '\t'
          else if e = 'r' then some '\r'
          else none
        match ec with
        | some d =>
          (parseStringBody f rest2).map fun p => (String.mk (d :: p.1.data), p.2)
        | none => none
    else (parseStringBody f rest).map fun p => (String.mk (c :: p.1.data), p.2)

/-- Decimal digits to a natural number. -/
def digitsToNat (ds : List Char) : Nat :=
  ds.foldl (fun n d => n * 10 + (d.toNat - 48)) 0

/-- Parse an integer JSON number (optional minus sign, then digits). -/
def parseNumber (cs : List Char) : Option (Int × List Char) :=
  match cs with
  | '-' :: rest =>
    let ds := rest.takeWhile Char.isDigit
    if ds.isEmpty then none
    else some (-(digitsToNat ds : Int), rest.dropWhile Char.isDigit)
  | _ =>
    let ds := cs.takeWhile Char.isDigit
    if ds.isEmpty then none
    else some ((digitsToNat ds : Int), cs.dropWhile Char.isDigit)

mutual

/-- Parse one JSON value, fuel-bounded. -/
def parseVal : Nat → List Char → Option (JsonVal × List Char)
  | 0, _ => none
  | f + 1, cs =>
    match skipWs cs with
    | [] => none
    | c :: rest =>
      if c = '\x7b' then
        match skipWs rest with
        | '\x7d' :: rest2 => some (.obj [], rest2)
        | _ =>
          match parseMembers f rest with
          | some (kvs, rest2) =>
            match skipWs rest2 with
            | '\x7d' :: rest3 => some (.obj kvs, rest3)
            | _ => none
          | none => none
      else if c = '[' then
        match skipWs rest with
        | ']' :: rest2 => some (.arr [], rest2)
        | _ =>
          match parseElems f rest with
          | some (vs, rest2) =>
            match skipWs rest2 with
            | ']' :: rest3 => some (.arr vs, rest3)
            | _ => none
          | none => none
      else if c = '"' then
        (parseStringBody rest.length rest).map fun p => (.str p.1, p.2)
      else if c = 't' then
        if rest.take 3 = ['r', 'u', 'e'] then some (.bool true, rest.drop 3) else none
      else if c = 'f' then
        if rest.take 4 = ['a', 'l', 's', 'e'] then some (.bool false, rest.drop 4)
        else none
      else if c = 'n' then
        if rest.take 3 = ['u', 'l', 'l'] then some (.null, rest.drop 3) else none
      else
        (parseNumber (c :: rest)).map fun p => (.num p.1, p.2)

/-- Parse the comma-separated members of a JSON object (not the braces). -/
def parseMembers : Nat → List Char → Option (List (String × JsonVal) × List Char)
  | 0, _ => none
  | f + 1, cs =>
    match skipWs cs with
    | '"' :: rest =>
      match parseStringBody rest.length rest with
      | some (k, rest2) =>
        match skipWs rest2 with
        | ':' :: rest3 =>
          match parseVal f rest3 with
          | some (v, rest4) =>
            match skipWs rest4 with
            | ',' :: rest5 =>
              match parseMembers f rest5 with
              | some (kvs, rest6) => some ((k, v) :: kvs, rest6)
              | none => none
            | _ => some ([(k, v)], rest4)
          | none => none
        | _ => none
      | none => none
    | _ => none

/-- Parse the comma-separated elements of a JSON array (not the brackets). -/
def parseElems : Nat → List Char → Option (List JsonVal × List Char)
  | 0, _ => none
  | f + 1, cs =>
    match parseVal f cs with
    | some (v, rest) =>
      match skipWs rest with
      | ',' :: rest2 =>
        match parseElems f rest2 with
        | some (vs, rest3) => some (v :: vs, rest3)
        | none => none
      | _ => some ([v], rest)
    | none => none

end

/-- `JSON.parse`: parse a whole string as a single JSON value (trailing
whitespace allowed), `none` on failure. -/
def parseJson (s : String) : Option JsonVal :=
  match parseVal (s.length + 1) s.data with
  | some (v, rest) => if (skipWs rest).isEmpty then some v else none
  | none => none

/-- Escape one character as inside a JSON string literal. -/
def escapeChar (c : Char) : String :=
  if c = '"' then "\\\""
  else if c = '\\' then "\\\\"
  else if c = '\n' then "\\n"
  else if c = '\t' then "\\t"
  else if c = '\r' then "\\r"
  else String.mk [c]

/-- A JSON string literal: quoted and escaped. -/
def quoteString (s : String) : String :=
  "\"" ++ String.join (s.data.map escapeChar) ++ "\""

mutual

/-- `JSON.stringify` (compact form, no spacing). -/
def serializeJson : JsonVal → String
  | .null => "null"
  | .bool true => "true"
  | .bool false => "false"
  | .num n => toString n
  | .str s => quoteString s
  | .arr vs => "[" ++ serializeElems vs ++ "]"
  | .obj kvs => "\x7b" ++ serializeMembers kvs ++ "\x7d"

/-- Serialize array elements, comma-separated. -/
def serializeElems : List JsonVal → String
  | [] => ""
  | [v] => serializeJson v
  | v :: vs => serializeJson v ++ "," ++ serializeElems vs

/-- Serialize object members, comma-separated. -/
def serializeMembers : List (String × JsonVal) → String
  | [] => ""
  | [kv] => quoteString kv.1 ++ ":" ++ serializeJson kv.2
  | kv :: kvs => quoteString kv.1 ++ ":" ++ serializeJson kv.2 ++ "," ++ serializeMembers kvs

end

/-! ## JS string methods

The JS string methods used by `sendMessage`, modelled over the character
list so that every definition evaluates by kernel reduction. -/

/-- Whitespace as stripped by `String.prototype.trim`. -/
def jsWhitespace (c : Char) : Bool :=
  c = ' ' || c = '\t' || c = '\n' || c = '\r' || c = '\x0b' || c = '\x0c'

/-- `s.trim()`: strip leading and trailing whitespace. -/
def jsTrim (s : String) : String :=
  ⟨((s.data.dropWhile jsWhitespace).reverse.dropWhile jsWhitespace).reverse⟩

/-- `s.toLowerCase()` (ASCII case folding suffices for the prefix tests). -/
def jsToLower (s : String) : String :=
  ⟨s.data.map Char.toLower⟩

/-- `s.startsWith(pat)`. -/
def jsStartsWith (s pat : String) : Bool :=
  pat.data.isPrefixOf s.data

/-- `s.slice(n)`: drop the first `n` characters. -/
def jsDrop (s : String) (n : Nat) : String :=
  ⟨s.data.drop n⟩

/-! ## Mode classification, prompts and the send pipeline -/

/-- A conversation message `{ role, content }`. -/
structure Msg where
  role : String
  content : String
deriving DecidableEq

/-- The three input modes. -/
inductive Mode where
  | draft
  | score
  | unsupported
deriving DecidableEq

/-- Base system message content (shared by all modes). -/
def baseSystemContent : String :=
  "You are Jironaut, a Jira co-pilot. You ONLY help with writing, scoring, and improving Jira tickets. You never answer unrelated questions. Always respond in a structured way: either as a draft Jira ticket or as a scoring report."

/-- Mode prompt for Draft mode (template literal from the source). -/
def draftPrompt : String :=
  "Draft a Jira ticket from the following brief. \nReturn JSON with:\n- title (≤80 chars, action + context)\n- description_markdown (with sections: Why, What, Constraints)\n- acceptance_criteria (4–8 Gherkin-style items)\n- labels (≤5, kebab-case)\nRules:\n- If details are missing, add a \"Questions\" section at the end.\n- Include risk_notes, qa_checks, and assumptions if relevant.\n- Keep tone clear, concise, and Jira-ready.\n"

/-- Text appended to the system message content in Score mode. -/
def scoreAppendix : String :=
  "\nYou are Jironaut, a Jira ticket reviewer. \nScore tickets against 8 criteria (total 100 points):\n- Title clarity (10), Description completeness (15), Benefit Hypothesis (20), Leading Indicators (15),\n  Strategic alignment (10), Risk/Impact (10), Dependencies (10), Scope clarity (10).\nReturn JSON with: individual scores, total %, one badge, one positive note, one area to improve, \nand ask if user wants rewrite.\nBadges:\n- Visionary Thinker 🌟: Benefit+Alignment+Indicators ≥ 40/45\n- Feature Architect 🧠: Total ≥ 85%\n- Clarity Champion 🥇: Title+Description+Scope ≥ 30/35\n- Risk Wrangler ⚖️: Risk+Dependencies ≥ 15/20\n"

/-- Mode prompt for Score mode. -/
def scorePromptText : String := "Evaluate the following Jira ticket:"

/-- Mode prompt when neither prefix matches. -/
def unsupportedPromptText : String :=
  "Only Jira-related drafting and scoring tasks are supported."

/-- Outcome of the classification block of `sendMessage`: the mode, the
system message content, the mode prompt, and the cleaned input. -/
structure ClassifyResult where
  mode : Mode
  systemContent : String
  modePrompt : String
  cleanedInput : String
deriving DecidableEq

/-- The classification block of `sendMessage`: trim the input, test the
lowercased form for the `draft:` and `score:` markers, strip the 6-character
marker and trim again on a match; otherwise the cleaned input is the trimmed
raw input. -/
def classify (input : String) : ClassifyResult :=
  let c := jsTrim input
  if jsStartsWith (jsToLower c) "draft:" then
    ⟨.draft, baseSystemContent, draftPrompt, jsTrim (jsDrop c 6)⟩
  else if jsStartsWith (jsToLower c) "score:" then
    ⟨.score, baseSystemContent ++ scoreAppendix, scorePromptText,
      jsTrim (jsDrop c 6)⟩
  else
    ⟨.unsupported, baseSystemContent, unsupportedPromptText, c⟩

/-- `getCachedResult`: lookup in the `jironautCache` mapping. -/
def getCachedResult (cache : List (String × String)) (input : String) :
    Option String :=
  cache.lookup input

/-- `setCachedResult`: `cache[input] = result` on the JS object — replace in
place when the key exists, append otherwise. -/
def setCachedResult : List (String × String) → String → String →
    List (String × String)
  | [], input, result => [(input, result)]
  | (k, v) :: rest, input, result =>
    if k = input then (k, result) :: rest
    else (k, v) :: setCachedResult rest input result

/-- JS truthiness of `getCachedResult`'s value (`if (cached)`): present and
nonempty. -/
def isHit : Option String → Bool
  | some c => !(c == "")
  | none => false

/-- Property assignment on a JS object (`parsed.total = ...`): overwrite in
place when the key exists, append otherwise. -/
def setField : List (String × JsonVal) → String → JsonVal →
    List (String × JsonVal)
  | [], k, v => [(k, v)]
  | (k0, v0) :: rest, k, v =>
    if k0 = k then (k0, v) :: rest else (k0, v0) :: setField rest k v

/-- Read a `scores` JSON object as a rubric mapping; `none` when the value is
not an object with integer values (such responses, which in the source feed
NaN arithmetic, are outside the model and take the raw-text path below). -/
def scoresEntries : JsonVal → Option (List (String × Int))
  | .obj kvs =>
    kvs.mapM fun kv =>
      match kv.2 with
      | .num n => some (kv.1, n)
      | _ => none
  | _ => none

/-- The badge as stored into the parsed object (`null` or the label). -/
def badgeToJson : Option Badge → JsonVal
  | none => .null
  | some b => .str (badgeLabel b)

/-- The two field assignments `parsed.total = total; parsed.badge = badge`
with the rubric scorer's output. -/
def rescoreFields (kvs : List (String × JsonVal)) (s : List (String × Int)) :
    List (String × JsonVal) :=
  let r := calculateBadgeAndTotal s
  setField (setField kvs "total" (.num r.total)) "badge" (badgeToJson r.badge)

/-- UI state read by `sendMessage`: conversation, cache, in-flight flag. -/
structure ChatState where
  messages : List Msg
  cache : List (String × String)
  isLoading : Bool
deriving DecidableEq

/-- Observable result of one `sendMessage` run: the final conversation, the
final cache, and how many upstream completion calls were made. -/
structure SendResult where
  messages : List Msg
  cache : List (String × String)
  upstreamCalls : Nat
deriving DecidableEq

/-- The outgoing message sequence: fresh system message, prior non-system
history, new user message (`modePrompt\n\ncleanedInput`). -/
def newMessagesOf (st : ChatState) (input : String) : List Msg :=
  let cr := classify input
  ⟨"system", cr.systemContent⟩ ::
    (st.messages.filter (fun m => !(m.role == "system")) ++
      [⟨"user", cr.modePrompt ++ "\n\n" ++ cr.cleanedInput⟩])

/-- The response-parsing block of `sendMessage`: parse the upstream text; if
it is a JSON object with a truthy `scores` field, recompute total/badge,
overwrite those fields, re-serialize, cache under the cleaned input and
return the re-serialized text; otherwise return the raw text with no cache
write. -/
def assembleResponse (st : ChatState) (newMessages : List Msg)
    (cleanedInput aiMessage : String) (calls : Nat) : SendResult :=
  let raw : SendResult :=
    ⟨newMessages ++ [⟨"assistant", aiMessage⟩], st.cache, calls⟩
  match parseJson aiMessage with
  | some (.obj kvs) =>
    match kvs.lookup "scores" with
    | some sv =>
      if jsTruthy sv then
        match scoresEntries sv with
        | some s =>
          let finalMessage := serializeJson (.obj (rescoreFields kvs s))
          ⟨newMessages ++ [⟨"assistant", finalMessage⟩],
            setCachedResult st.cache cleanedInput finalMessage, calls⟩
        | none => raw
      else raw
    | none => raw
  | _ => raw

/-- Fallback message of the catch block: billing-exhaustion text when the
error message contains "billing", rate-limiting text otherwise. -/
def fallbackFor (m : String) : String :=
  if strContains m "billing" then
    "⚠️ OpenAI says your quota is exceeded. Add a payment method or top up credits."
  else
    "⚠️ We’re sending requests too quickly. Please wait a moment and try again."

/-- The quota-exceeded fallback text. -/
def quotaFallback : String :=
  "⚠️ OpenAI says your quota is exceeded. Add a payment method or top up credits."

/-- The rate-limiting fallback text. -/
def rateFallback : String :=
  "⚠️ We’re sending requests too quickly. Please wait a moment and try again."

/-- The message of the error thrown out of `chatWithRetry`, when it failed. -/
def outcomeErrMessage : RetryOutcome → Option String
  | .ok _ => none
  | .billingExceeded => some billingErrText
  | .err e => some e.message

/-- Embedding of `sendMessage`: early return on blank input or while
loading; classify; build the outgoing messages; consult the cache
(unconditionally, for every mode); on a truthy hit return the cached text
with no upstream call; on a miss run `chatWithRetry` (default options
`retries = 3`, `baseDelayMs = 800`) and either assemble the response or
recover a failure into the fixed fallback message. -/
def sendMessage (st : ChatState) (input : String)
    (oracle : Nat → AttemptResult) : SendResult :=
  if jsTrim input == "" || st.isLoading then ⟨st.messages, st.cache, 0⟩
  else
    let cr := classify input
    let newMessages := newMessagesOf st input
    let cached := getCachedResult st.cache cr.cleanedInput
    if isHit cached then
      ⟨newMessages ++ [⟨"assistant", cached.getD ""⟩], st.cache, 0⟩
    else
      let r := chatWithRetry oracle 3 800
      match r.outcome with
      | .ok aiMessage =>
        assembleResponse st newMessages cr.cleanedInput aiMessage r.calls
      | .billingExceeded =>
        ⟨newMessages ++ [⟨"assistant", fallbackFor billingErrText⟩],
          st.cache, r.calls⟩
      | .err e =>
        ⟨newMessages ++ [⟨"assistant", fallbackFor e.message⟩],
          st.cache, r.calls⟩

/-! ## Claims about classification and the send pipeline -/

lemma lookup_setField_self (l : List (String × JsonVal)) (k : String)
    (v : JsonVal) : (setField l k v).lookup k = some v := by
  induction l with
  | nil => simp [setField, List.lookup]
  | cons hd tl ih =>
    obtain ⟨k0, v0⟩ := hd
    by_cases h : k0 = k
    · simp [setField, h, List.lookup]
    · have hb : (k == k0) = false := by simp [Ne.symm h]
      simp [setField, h, List.lookup, hb, ih]

lemma lookup_setField_ne (l : List (String × JsonVal)) (k k2 : String)
    (v : JsonVal) (h : k2 ≠ k) :
    (setField l k v).lookup k2 = l.lookup k2 := by
  have hb : (k2 == k) = false := by simp [h]
  induction l with
  | nil => simp [setField, List.lookup, hb]
  | cons hd tl ih =>
    obtain ⟨k0, v0⟩ := hd
    by_cases hk : k0 = k
    · subst hk
      simp [setField, List.lookup, hb]
    · simp only [setField, hk, if_false, List.lookup]
      cases hx : (k2 == k0) <;> simp [hx, ih]

lemma getCached_set_self (cache : List (String × String)) (k v : String) :
    getCachedResult (setCachedResult cache k v) k = some v := by
  induction cache with
  | nil => simp [setCachedResult, getCachedResult, List.lookup]
  | cons hd tl ih =>
    obtain ⟨k0, v0⟩ := hd
    by_cases h : k0 = k
    · simp [setCachedResult, getCachedResult, h, List.lookup]
    · have hb : (k == k0) = false := by simp [Ne.symm h]
      simp only [setCachedResult, h, if_false, getCachedResult, List.lookup, hb]
      exact ih

/-- Claim C8: inputs whose trimmed lowercased form starts with `draft:`
classify as Draft with the cleaned input equal to the trimmed text after the
6-character marker; inputs matching neither marker classify as Unsupported
with the cleaned input equal to the trimmed raw input; classification is
total, and in particular defined on the empty string. -/
theorem c8_classify :
    (∀ s : String, jsStartsWith (jsToLower (jsTrim s)) "draft:" = true →
      (classify s).mode = Mode.draft ∧
      (classify s).cleanedInput = jsTrim (jsDrop (jsTrim s) 6)) ∧
    (∀ s : String, jsStartsWith (jsToLower (jsTrim s)) "draft:" = false →
      jsStartsWith (jsToLower (jsTrim s)) "score:" = false →
      (classify s).mode = Mode.unsupported ∧
      (classify s).cleanedInput = jsTrim s) ∧
    ((classify "").mode = Mode.unsupported ∧ (classify "").cleanedInput = "") := by
  refine ⟨fun s hd => ?_, fun s hd hs => ?_, by decide, by decide⟩
  · simp [classify, hd]
  · simp [classify, hd, hs]

/-- Witness for C8 at a Draft-marked input and at an unmarked input. -/
theorem c8_classify_witness :
    (jsStartsWith (jsToLower (jsTrim "  DRAFT: fix login  ")) "draft:" = true ∧
      (classify "  DRAFT: fix login  ").mode = Mode.draft ∧
      (classify "  DRAFT: fix login  ").cleanedInput =
        jsTrim (jsDrop (jsTrim "  DRAFT: fix login  ") 6)) ∧
    (jsStartsWith (jsToLower (jsTrim "hello")) "draft:" = false ∧
      jsStartsWith (jsToLower (jsTrim "hello")) "score:" = false ∧
      (classify "hello").mode = Mode.unsupported ∧
      (classify "hello").cleanedInput = jsTrim "hello") := by
  have hd : jsStartsWith (jsToLower (jsTrim "  DRAFT: fix login  ")) "draft:" = true := by
    decide
  have h1 : jsStartsWith (jsToLower (jsTrim "hello")) "draft:" = false := by decide
  have h2 : jsStartsWith (jsToLower (jsTrim "hello")) "score:" = false := by decide
  exact ⟨⟨hd, c8_classify.1 _ hd⟩, ⟨h1, h2, c8_classify.2.1 _ h1 h2⟩⟩

/-- An oracle whose upstream calls all succeed with a fixed plain text. -/
def okOracle : Nat → AttemptResult := fun _ => .success "UPSTREAM TEXT"

/-- State with a cached entry under the key `hello` (an Unsupported-mode
cleaned input). -/
def c5State : ChatState := ⟨[], [("hello", "CACHED RESPONSE")], false⟩

/-- Counterexample to claim C5: the cache is consulted for Unsupported mode
too.  The input `hello` classifies as Unsupported, yet `sendMessage` returns
the cached text with zero upstream calls instead of calling the completion
client. -/
theorem c5_counterexample :
    (classify "hello").mode = Mode.unsupported ∧
    (sendMessage c5State "hello" okOracle).upstreamCalls = 0 ∧
    (sendMessage c5State "hello" okOracle).messages =
      newMessagesOf c5State "hello" ++ [⟨"assistant", "CACHED RESPONSE"⟩] ∧
    (sendMessage c5State "hello" okOracle).cache = c5State.cache := by
  exact ⟨by decide, by decide, by decide, by decide⟩

/-- Claim C5 (amended): the cache is consulted for every mode — Draft, Score
and Unsupported alike — after cleaning, and whenever it contains a nonempty
entry for the cleaned input, `sendMessage` returns that stored text
unchanged as the assistant message, performs zero upstream completion calls
and leaves the cache unchanged. -/
theorem c5_amended (st : ChatState) (input : String)
    (oracle : Nat → AttemptResult) (c : String)
    (h1 : (jsTrim input == "") = false) (h2 : st.isLoading = false)
    (hc : getCachedResult st.cache (classify input).cleanedInput = some c)
    (hne : (c == "") = false) :
    (sendMessage st input oracle).messages =
      newMessagesOf st input ++ [⟨"assistant", c⟩] ∧
    (sendMessage st input oracle).upstreamCalls = 0 ∧
    (sendMessage st input oracle).cache = st.cache := by
  simp [sendMessage, h1, h2, hc, isHit, hne]

/-- Witness for the amended C5 at a concrete cached Unsupported input. -/
theorem c5_amended_witness :
    (jsTrim "hello" == "") = false ∧ c5State.isLoading = false ∧
    getCachedResult c5State.cache (classify "hello").cleanedInput =
      some "CACHED RESPONSE" ∧
    (("CACHED RESPONSE" : String) == "") = false ∧
    ((sendMessage c5State "hello" okOracle).messages =
        newMessagesOf c5State "hello" ++ [⟨"assistant", "CACHED RESPONSE"⟩] ∧
      (sendMessage c5State "hello" okOracle).upstreamCalls = 0 ∧
      (sendMessage c5State "hello" okOracle).cache = c5State.cache) :=
  ⟨by decide, by decide, by decide, by decide,
    c5_amended c5State "hello" okOracle "CACHED RESPONSE"
      (by decide) (by decide) (by decide) (by decide)⟩

/-- Claim C6: on a cache miss, when the upstream text parses as a JSON
object with a truthy `scores` field (an integer-valued mapping), the final
assistant text is the re-serialization of that object with `total` and
`badge` overwritten by the rubric scorer's output on the same mapping —
those fields of the final object equal an independent
`calculateBadgeAndTotal` call — and the final text is cached under the
cleaned-input key. -/
theorem c6_rescore (st : ChatState) (input aiMessage : String)
    (oracle : Nat → AttemptResult) (kvs : List (String × JsonVal))
    (sv : JsonVal) (s : List (String × Int))
    (h1 : (jsTrim input == "") = false) (h2 : st.isLoading = false)
    (hmiss : isHit (getCachedResult st.cache (classify input).cleanedInput) = false)
    (hok : (chatWithRetry oracle 3 800).outcome = .ok aiMessage)
    (hparse : parseJson aiMessage = some (.obj kvs))
    (hsv : kvs.lookup "scores" = some sv)
    (htruthy : jsTruthy sv = true)
    (hs : scoresEntries sv = some s) :
    (sendMessage st input oracle).messages =
      newMessagesOf st input ++
        [⟨"assistant", serializeJson (.obj (rescoreFields kvs s))⟩] ∧
    (rescoreFields kvs s).lookup "total" =
      some (.num (calculateBadgeAndTotal s).total) ∧
    (rescoreFields kvs s).lookup "badge" =
      some (badgeToJson (calculateBadgeAndTotal s).badge) ∧
    getCachedResult (sendMessage st input oracle).cache
        (classify input).cleanedInput =
      some (serializeJson (.obj (rescoreFields kvs s))) := by
  have hmain : sendMessage st input oracle =
      ⟨newMessagesOf st input ++
          [⟨"assistant", serializeJson (.obj (rescoreFields kvs s))⟩],
        setCachedResult st.cache (classify input).cleanedInput
          (serializeJson (.obj (rescoreFields kvs s))),
        (chatWithRetry oracle 3 800).calls⟩ := by
    simp [sendMessage, h1, h2, hmiss, hok, assembleResponse, hparse, hsv,
      htruthy, hs]
  refine ⟨by rw [hmain], ?_, ?_, by rw [hmain]; exact getCached_set_self _ _ _⟩
  · rw [rescoreFields, lookup_setField_ne _ _ _ _ (by decide),
      lookup_setField_self]
  · rw [rescoreFields, lookup_setField_self]

/-- A concrete Score-mode upstream response carrying a `scores` object. -/
def scoreResponseText : String :=
  "\x7b\"scores\":\x7b\"Risk/Impact\":10,\"Dependencies\":10\x7d,\"total\":0,\"badge\":null\x7d"

/-- An oracle answering every call with `scoreResponseText`. -/
def scoreOracle : Nat → AttemptResult := fun _ => .success scoreResponseText

/-- The parsed fields of `scoreResponseText`. -/
def c6Kvs : List (String × JsonVal) :=
  [("scores", .obj [("Risk/Impact", .num 10), ("Dependencies", .num 10)]),
    ("total", .num 0), ("badge", .null)]

/-- The `scores` mapping inside `scoreResponseText`. -/
def c6Scores : List (String × Int) := [("Risk/Impact", 10), ("Dependencies", 10)]

/-- The empty starting state. -/
def emptyState : ChatState := ⟨[], [], false⟩

/-- Witness for C6 at a concrete Score-mode exchange. -/
theorem c6_rescore_witness :
    (jsTrim "score: my ticket" == "") = false ∧ emptyState.isLoading = false ∧
    isHit (getCachedResult emptyState.cache
      (classify "score: my ticket").cleanedInput) = false ∧
    (chatWithRetry scoreOracle 3 800).outcome = .ok scoreResponseText ∧
    parseJson scoreResponseText = some (.obj c6Kvs) ∧
    c6Kvs.lookup "scores" =
      some (.obj [("Risk/Impact", .num 10), ("Dependencies", .num 10)]) ∧
    scoresEntries (.obj [("Risk/Impact", .num 10), ("Dependencies", .num 10)]) =
      some c6Scores ∧
    ((sendMessage emptyState "score: my ticket" scoreOracle).messages =
        newMessagesOf emptyState "score: my ticket" ++
          [⟨"assistant", serializeJson (.obj (rescoreFields c6Kvs c6Scores))⟩] ∧
      (rescoreFields c6Kvs c6Scores).lookup "total" =
        some (.num (calculateBadgeAndTotal c6Scores).total) ∧
      (rescoreFields c6Kvs c6Scores).lookup "badge" =
        some (badgeToJson (calculateBadgeAndTotal c6Scores).badge) ∧
      getCachedResult (sendMessage emptyState "score: my ticket" scoreOracle).cache
          (classify "score: my ticket").cleanedInput =
        some (serializeJson (.obj (rescoreFields c6Kvs c6Scores)))) :=
  ⟨by decide, by decide, by decide, by decide, rfl, rfl, rfl,
    c6_rescore emptyState "score: my ticket" scoreResponseText scoreOracle
      c6Kvs (.obj [("Risk/Impact", .num 10), ("Dependencies", .num 10)])
      c6Scores (by decide) (by decide) (by decide) (by decide) rfl rfl rfl rfl⟩

/-- Claim C7: on a cache miss, when the upstream text fails to parse as
JSON, or parses to an object with no `scores` field, the raw text is
returned unmodified as the assistant message, no cache write happens, and no
error is surfaced. -/
theorem c7_raw_passthrough (st : ChatState) (input aiMessage : String)
    (oracle : Nat → AttemptResult)
    (h1 : (jsTrim input == "") = false) (h2 : st.isLoading = false)
    (hmiss : isHit (getCachedResult st.cache (classify input).cleanedInput) = false)
    (hok : (chatWithRetry oracle 3 800).outcome = .ok aiMessage)
    (hnp : parseJson aiMessage = none ∨
      ∃ kvs, parseJson aiMessage = some (.obj kvs) ∧
        kvs.lookup "scores" = none) :
    (sendMessage st input oracle).messages =
      newMessagesOf st input ++ [⟨"assistant", aiMessage⟩] ∧
    (sendMessage st input oracle).cache = st.cache := by
  rcases hnp with h | ⟨kvs, hp, hn⟩
  · simp [sendMessage, h1, h2, hmiss, hok, assembleResponse, h]
  · simp [sendMessage, h1, h2, hmiss, hok, assembleResponse, hp, hn]

/-- An oracle answering every call with plain, non-JSON text. -/
def plainOracle : Nat → AttemptResult :=
  fun _ => .success "Sorry, I can only draft or review Jira tickets."

/-- Witness for C7 at a concrete unparsable upstream response. -/
theorem c7_raw_passthrough_witness :
    (jsTrim "draft: a login page" == "") = false ∧ emptyState.isLoading = false ∧
    isHit (getCachedResult emptyState.cache
      (classify "draft: a login page").cleanedInput) = false ∧
    (chatWithRetry plainOracle 3 800).outcome =
      .ok "Sorry, I can only draft or review Jira tickets." ∧
    parseJson "Sorry, I can only draft or review Jira tickets." = none ∧
    ((sendMessage emptyState "draft: a login page" plainOracle).messages =
        newMessagesOf emptyState "draft: a login page" ++
          [⟨"assistant", "Sorry, I can only draft or review Jira tickets."⟩] ∧
      (sendMessage emptyState "draft: a login page" plainOracle).cache =
        emptyState.cache) :=
  ⟨by decide, by decide, by decide, by decide, rfl,
    c7_raw_passthrough emptyState "draft: a login page"
      "Sorry, I can only draft or review Jira tickets." plainOracle
      (by decide) (by decide) (by decide) (by decide) (Or.inl rfl)⟩

/-- Claim C9: every failure propagated out of `chatWithRetry` (the distinct
billing error, an exhausted rate-limit error, or any other error) is
recovered locally: `sendMessage` appends exactly one assistant message whose
text is one of the two fixed human-readable fallbacks — the quota text when
the error message contains "billing", the rate-limit text otherwise — and no
raw error escapes. -/
theorem c9_failure_recovery (st : ChatState) (input m : String)
    (oracle : Nat → AttemptResult)
    (h1 : (jsTrim input == "") = false) (h2 : st.isLoading = false)
    (hmiss : isHit (getCachedResult st.cache (classify input).cleanedInput) = false)
    (hfail : outcomeErrMessage (chatWithRetry oracle 3 800).outcome = some m) :
    (sendMessage st input oracle).messages =
      newMessagesOf st input ++ [⟨"assistant", fallbackFor m⟩] ∧
    (fallbackFor m = quotaFallback ∨ fallbackFor m = rateFallback) ∧
    fallbackFor m =
      (if strContains m "billing" then quotaFallback else rateFallback) := by
  refine ⟨?_, ?_, ?_⟩
  · cases ho : (chatWithRetry oracle 3 800).outcome with
    | ok t => rw [ho] at hfail; simp [outcomeErrMessage] at hfail
    | billingExceeded =>
      rw [ho] at hfail
      simp only [outcomeErrMessage, Option.some.injEq] at hfail
      subst hfail
      simp [sendMessage, h1, h2, hmiss, ho]
    | err e =>
      rw [ho] at hfail
      simp only [outcomeErrMessage, Option.some.injEq] at hfail
      subst hfail
      simp [sendMessage, h1, h2, hmiss, ho]
  · by_cases hb : strContains m "billing" = true
    · exact Or.inl (by simp [fallbackFor, hb, quotaFallback])
    · exact Or.inr (by simp [fallbackFor, hb, rateFallback])
  · simp only [fallbackFor, quotaFallback, rateFallback]

/-- An oracle that always fails with a billing-quota error. -/
def billingOracle : Nat → AttemptResult := fun _ => .failure billingQuotaErr

/-- Witness for C9 at a concrete billing failure (one upstream call, the
distinct billing error recovered into the quota fallback). -/
theorem c9_failure_recovery_witness :
    (jsTrim "score: my ticket" == "") = false ∧ emptyState.isLoading = false ∧
    isHit (getCachedResult emptyState.cache
      (classify "score: my ticket").cleanedInput) = false ∧
    outcomeErrMessage (chatWithRetry billingOracle 3 800).outcome =
      some billingErrText ∧
    ((sendMessage emptyState "score: my ticket" billingOracle).messages =
        newMessagesOf emptyState "score: my ticket" ++
          [⟨"assistant", fallbackFor billingErrText⟩] ∧
      (fallbackFor billingErrText = quotaFallback ∨
        fallbackFor billingErrText = rateFallback) ∧
      fallbackFor billingErrText =
        (if strContains billingErrText "billing" then quotaFallback
         else rateFallback)) := by
  have hf : outcomeErrMessage (chatWithRetry billingOracle 3 800).outcome =
      some billingErrText := by decide
  exact ⟨by decide, by decide, by decide, hf,
    c9_failure_recovery emptyState "score: my ticket" billingErrText
      billingOracle (by decide) (by decide) (by decide) hf⟩

end Jironaut
